import Mathlib

/-
Verification of the Murmur ICE JSON-RPC sidecar (scripts/mumble-ice.py).

The sidecar reads one JSON object per stdin line, routes it to one of seven
Murmur ICE operations, and writes one JSON response line per request.  We
embed the script shallowly:

* `Json` is the value universe of Python's `json` module restricted to the
  shapes this program produces and consumes (floating-point literals are not
  modelled; a float literal is a parse error in `jsonLoads`).
* Python builtins used by the script (`int()`, `bool()`, `str()`, dict
  indexing / `.get`, `in`, iteration) are modelled by `pyInt`, `pyBool`,
  `pyStr`, `pyIndex`, `pyGetDefault`, `pyContains`, `pyIterate`; exceptions
  become the `Exc` inductive.
* The remote ICE server is an oracle `ServerPrx` of functions returning
  `Except Exc _`; every invocation `dispatch` performs is recorded in a
  `RemoteCall` trace so that claims about which calls happen are statable.
* `main` models the process lifecycle over an abstract startup environment
  (`StartupEnv`): stdout lines, stderr lines, exit code and the number of
  `communicator.destroy()` calls are all explicit.
-/

inductive Json where
  | null : Json
  | bool : Bool → Json
  | num : Int → Json
  | str : String → Json
  | arr : List Json → Json
  | obj : List (String × Json) → Json

/-- Exceptions that can be raised during one request's handling: the three
Murmur ICE exception classes the script catches specially, and the Python
builtin exception classes its own code can raise. -/
inductive Exc where
  | invalidUser : Exc
  | invalidChannel : Exc
  | invalidSecret : Exc
  | valueError : String → Exc
  | keyError : String → Exc
  | typeError : String → Exc
  | attributeError : String → Exc
  | runtimeError : String → Exc
deriving DecidableEq

/-- Python `str(e)` for an exception: `KeyError` renders as the repr of the
missing key, the others as their message. -/
def excMessage : Exc → String
  | .invalidUser => "InvalidUserException()"
  | .invalidChannel => "InvalidChannelException()"
  | .invalidSecret => "InvalidSecretException()"
  | .valueError m => m
  | .keyError k => "\x27" ++ k ++ "\x27"
  | .typeError m => m
  | .attributeError m => m
  | .runtimeError m => m

/-- Python type name of a JSON value, as used in builtin error messages. -/
def pyTypeName : Json → String
  | .null => "NoneType"
  | .bool _ => "bool"
  | .num _ => "int"
  | .str _ => "str"
  | .arr _ => "list"
  | .obj _ => "dict"

mutual
/-- Python `repr()` of a JSON value. -/
def pyRepr : Json → String
  | .null => "None"
  | .bool b => cond b "True" "False"
  | .num n => toString n
  | .str s => "\x27" ++ s ++ "\x27"
  | .arr xs => "[" ++ pyReprList xs ++ "]"
  | .obj xs => "\x7b" ++ pyReprObj xs ++ "\x7d"

def pyReprList : List Json → String
  | [] => ""
  | [x] => pyRepr x
  | x :: xs => pyRepr x ++ ", " ++ pyReprList xs

def pyReprObj : List (String × Json) → String
  | [] => ""
  | [(k, v)] => "\x27" ++ k ++ "\x27: " ++ pyRepr v
  | (k, v) :: xs => "\x27" ++ k ++ "\x27: " ++ pyRepr v ++ ", " ++ pyReprObj xs
end

/-- Python `str()` of a JSON value (identity on strings, `repr`-like text on
containers, `None`/`True`/`False` keywords, decimal integers). -/
def pyStr : Json → String
  | .str s => s
  | .null => "None"
  | .bool b => cond b "True" "False"
  | .num n => toString n
  | j => pyRepr j

/-- Python truthiness (`bool()`), restricted to JSON values. -/
def pyBool : Json → Bool
  | .null => false
  | .bool b => b
  | .num n => n != 0
  | .str s => s != ""
  | .arr xs => !xs.isEmpty
  | .obj xs => !xs.isEmpty

def digitsToNat (cs : List Char) : Nat :=
  cs.foldl (fun a c => a * 10 + (c.toNat - 48)) 0

/-- Drop leading whitespace characters from a character sequence. -/
def dropLeadingWs : List Char → List Char
  | [] => []
  | c :: cs => if c.isWhitespace then dropLeadingWs cs else c :: cs

/-- Python `str.strip()` (for the ASCII whitespace this program meets):
drop leading and trailing whitespace. -/
def pyStrip (s : String) : String :=
  String.mk (List.reverse (dropLeadingWs (List.reverse (dropLeadingWs s.data))))

/-- Split an optional leading sign off a character sequence: the negativity
flag and the remaining characters. -/
def stripSign (cs : List Char) : Bool × List Char :=
  match cs with
  | c :: rest =>
    if c = '-' then (true, rest)
    else if c = '+' then (false, rest)
    else (false, cs)
  | [] => (false, [])

/-- Python `int()` applied to a string: strip whitespace, optional sign,
decimal digits.  (Underscore separators and non-ASCII digits are not
modelled.)  Failure raises `ValueError` quoting the malformed literal. -/
def pyIntOfStr (s : String) : Except Exc Int :=
  if (stripSign (pyStrip s).data).2 ≠ [] ∧ (stripSign (pyStrip s).data).2.all (·.isDigit) then
    .ok ((if (stripSign (pyStrip s).data).1 then -1 else 1)
          * Int.ofNat (digitsToNat (stripSign (pyStrip s).data).2))
  else
    .error (.valueError ("invalid literal for int() with base 10: \x27" ++ s ++ "\x27"))

/-- Python `int()` on a JSON value. -/
def pyInt : Json → Except Exc Int
  | .num n => .ok n
  | .bool b => .ok (cond b 1 0)
  | .str s => pyIntOfStr s
  | j => .error (.typeError
      ("int() argument must be a string, a bytes-like object or a real number, not \x27"
        ++ pyTypeName j ++ "\x27"))

/-- Lookup in a JSON object's member list with Python-dict semantics: when a
key occurs several times (possible straight out of the parser), the last
binding wins, as in `json.loads`. -/
def pyLookup (m : List (String × Json)) (k : String) : Option Json :=
  ((m.filter (fun kv => kv.1 == k)).getLast?).map (fun kv => kv.2)

/-- Python `d[k]` on a JSON value: `KeyError` when the key is absent,
`TypeError` when the value is not a dict. -/
def pyIndex (j : Json) (k : String) : Except Exc Json :=
  match j with
  | .obj m =>
    match pyLookup m k with
    | some v => .ok v
    | none => .error (.keyError k)
  | .str _ => .error (.typeError "string indices must be integers")
  | .arr _ => .error (.typeError "list indices must be integers or slices, not str")
  | j => .error (.typeError ("\x27" ++ pyTypeName j ++ "\x27 object is not subscriptable"))

/-- Python `d.get(k, default)` on a JSON value: `AttributeError` when the
value is not a dict. -/
def pyGetDefault (j : Json) (k : String) (d : Json) : Except Exc Json :=
  match j with
  | .obj m => .ok ((pyLookup m k).getD d)
  | j => .error (.attributeError
      ("\x27" ++ pyTypeName j ++ "\x27 object has no attribute \x27get\x27"))

/-- Python `k in v` for a string key `k`: dict keys, substring on strings,
membership on lists (`k == elem` is only true for the equal string). -/
def pyContains (j : Json) (k : String) : Except Exc Bool :=
  match j with
  | .obj m => .ok (m.any (fun kv => kv.1 == k))
  | .str s => .ok ((s.splitOn k).length > 1)
  | .arr xs => .ok (xs.any (fun x => match x with | .str t => t == k | _ => false))
  | j => .error (.typeError ("argument of type \x27" ++ pyTypeName j ++ "\x27 is not iterable"))

/-- Python `for a in v`: lists yield their elements, strings their
characters (as one-character strings), dicts their keys. -/
def pyIterate (j : Json) : Except Exc (List Json) :=
  match j with
  | .arr xs => .ok xs
  | .str s => .ok (s.data.map (fun c => .str (String.mk [c])))
  | .obj m => .ok (m.map (fun kv => .str kv.1))
  | j => .error (.typeError ("\x27" ++ pyTypeName j ++ "\x27 object is not iterable"))

/-
A model of `json.loads` on one input line.  The grammar follows RFC 8259 as
Python's json module implements it (strict mode): whitespace is space, tab,
newline, carriage return; strings use the standard escapes; numbers here are
restricted to integers (a fraction or exponent part is rejected by the model
since floats have no shallow embedding; none of the verified claims involves
a float literal), and `\u` escapes are likewise not modelled.  Error values
carry a diagnostic message (the model does not reproduce the exact
`JSONDecodeError` wording, which no claim depends on).
-/

def lbrace : Char := Char.ofNat 123

def rbrace : Char := Char.ofNat 125

def isJsonWs (c : Char) : Bool :=
  c == ' ' || c == '\t' || c == '\n' || c == '\r'

def skipWs : List Char → List Char
  | [] => []
  | c :: cs => if isJsonWs c then skipWs cs else c :: cs

/-- Parse the remainder of a JSON string literal (the opening quote has been
consumed); returns the decoded string and the rest of the input. -/
def parseStringRest : List Char → Except String (String × List Char)
  | [] => .error "Unterminated string"
  | c :: cs =>
    if c = '\"' then .ok ("", cs)
    else if c = '\\' then
      match cs with
      | [] => .error "Unterminated string"
      | e :: cs2 =>
        let esc : Option Char :=
          if e = '\"' then some '\"'
          else if e = '\\' then some '\\'
          else if e = '/' then some '/'
          else if e = 'n' then some '\n'
          else if e = 't' then some '\t'
          else if e = 'r' then some '\r'
          else if e = 'b' then some (Char.ofNat 8)
          else if e = 'f' then some (Char.ofNat 12)
          else none
        match esc with
        | none => .error "Invalid escape"
        | some ch =>
          match parseStringRest cs2 with
          | .ok (s, rest) => .ok (String.mk (ch :: s.data), rest)
          | .error m => .error m
    else if c.toNat < 32 then .error "Invalid control character"
    else
      match parseStringRest cs with
      | .ok (s, rest) => .ok (String.mk (c :: s.data), rest)
      | .error m => .error m

/-- Parse a JSON number (integer form only; see module note above). -/
def parseNumber (cs : List Char) : Except String (Json × List Char) :=
  let signed : Bool × List Char :=
    match cs with
    | c :: rest => if c = '-' then (true, rest) else (false, cs)
    | [] => (false, cs)
  match signed.2 with
  | [] => .error "Expecting value"
  | d :: rest =>
    if ¬ d.isDigit then .error "Expecting value"
    else
      let body : List Char × List Char :=
        if d = '0' then ([d], rest)
        else ((d :: rest).takeWhile (·.isDigit), (d :: rest).dropWhile (·.isDigit))
      match body.2 with
      | c :: _ =>
        if c = '.' ∨ c = 'e' ∨ c = 'E' then
          .error "float literals are outside this model"
        else
          .ok (.num ((if signed.1 then -1 else 1) * Int.ofNat (digitsToNat body.1)), body.2)
      | [] => .ok (.num ((if signed.1 then -1 else 1) * Int.ofNat (digitsToNat body.1)), body.2)

mutual
/-- Parse one JSON value, leading whitespace allowed. -/
def parseValue : Nat → List Char → Except String (Json × List Char)
  | 0, _ => .error "Input too deeply nested"
  | fuel + 1, cs =>
    match skipWs cs with
    | [] => .error "Expecting value"
    | c :: rest =>
      if c = 'n' then
        match rest with
        | 'u' :: 'l' :: 'l' :: r => .ok (.null, r)
        | _ => .error "Expecting value"
      else if c = 't' then
        match rest with
        | 'r' :: 'u' :: 'e' :: r => .ok (.bool true, r)
        | _ => .error "Expecting value"
      else if c = 'f' then
        match rest with
        | 'a' :: 'l' :: 's' :: 'e' :: r => .ok (.bool false, r)
        | _ => .error "Expecting value"
      else if c = '\"' then
        match parseStringRest rest with
        | .ok (s, r) => .ok (.str s, r)
        | .error m => .error m
      else if c = '[' then
        match skipWs rest with
        | ']' :: r => .ok (.arr [], r)
        | r => match parseElems fuel r with
          | .ok (vs, r2) => .ok (.arr vs, r2)
          | .error m => .error m
      else if c = lbrace then
        match skipWs rest with
        | b :: r =>
          if b = rbrace then .ok (.obj [], r)
          else
            match parseMembers fuel (b :: r) with
            | .ok (ms, r2) => .ok (.obj ms, r2)
            | .error m => .error m
        | [] => .error "Expecting property name"
      else parseNumber (c :: rest)

/-- Parse the elements of a non-empty array up to and including the closing
bracket. -/
def parseElems : Nat → List Char → Except String (List Json × List Char)
  | 0, _ => .error "Input too deeply nested"
  | fuel + 1, cs =>
    match parseValue fuel cs with
    | .error m => .error m
    | .ok (v, rest) =>
      match skipWs rest with
      | ',' :: r =>
        match parseElems fuel r with
        | .ok (vs, r2) => .ok (v :: vs, r2)
        | .error m => .error m
      | ']' :: r => .ok ([v], r)
      | _ => .error "Expecting comma or close bracket"

/-- Parse the members of a non-empty object up to and including the closing
brace. -/
def parseMembers : Nat → List Char → Except String (List (String × Json) × List Char)
  | 0, _ => .error "Input too deeply nested"
  | fuel + 1, cs =>
    match skipWs cs with
    | '\"' :: r =>
      match parseStringRest r with
      | .error m => .error m
      | .ok (k, r2) =>
        match skipWs r2 with
        | ':' :: r3 =>
          match parseValue fuel r3 with
          | .error m => .error m
          | .ok (v, r4) =>
            match skipWs r4 with
            | ',' :: r5 =>
              match parseMembers fuel r5 with
              | .ok (ms, r6) => .ok ((k, v) :: ms, r6)
              | .error m => .error m
            | b :: r5 =>
              if b = rbrace then .ok ([(k, v)], r5)
              else .error "Expecting comma or close brace"
            | [] => .error "Expecting comma or close brace"
        | _ => .error "Expecting colon"
    | _ => .error "Expecting property name"
end

/-- Model of `json.loads` on one line of input. -/
def jsonLoads (s : String) : Except String Json :=
  match parseValue (s.length + 2) s.data with
  | .error m => .error m
  | .ok (v, rest) =>
    match skipWs rest with
    | [] => .ok v
    | _ => .error "Extra data"

/-
The Murmur ICE surface the script uses.  `MumbleServer.ice` itself is not
part of this repository's sources; the `Murmur.UserInfo` enumeration values
below follow the script's own `name_map` (index 0 is UserName, ..., index 6
is UserKDFIterations), which mirrors the slice enumeration order.
-/

def UserInfoUserName : Int := 0

def UserInfoUserPassword : Int := 4

/-- One Murmur ACL entry, as `Murmur.ACL` (the fields `dispatch` sets). -/
structure ACL where
  applyHere : Bool
  applySubs : Bool
  inherited : Bool
  userid : Int
  group : String
  allow : Int
  deny : Int
deriving DecidableEq

/-- A group definition as occurring in `setACL`/`getACL`.  The script never
inspects one (it always sends an empty list and drops the received list), so
only the type is needed. -/
structure GroupDef where
  name : String
deriving DecidableEq

/-- A record of one remote ICE invocation with the exact arguments passed. -/
inductive RemoteCall where
  | registerUser : List (Int × Json) → RemoteCall
  | unregisterUser : Int → RemoteCall
  | updateRegistration : Int → List (Int × Json) → RemoteCall
  | getRegisteredUsers : Json → RemoteCall
  | setACL : Int → List ACL → List GroupDef → Bool → RemoteCall
  | getACL : Int → RemoteCall
  | getRegistration : Int → RemoteCall

/-- The remote server oracle (`Murmur.ServerPrx`): each remote procedure
either returns a value or raises an exception. -/
structure ServerPrx where
  registerUser : List (Int × Json) → Except Exc Int
  unregisterUser : Int → Except Exc Unit
  updateRegistration : Int → List (Int × Json) → Except Exc Unit
  getRegisteredUsers : Json → Except Exc (List (Int × String))
  setACL : Int → List ACL → List GroupDef → Bool → Except Exc Unit
  getACL : Int → Except Exc (List ACL × List GroupDef × Bool)
  getRegistration : Int → Except Exc (List (Int × String))

/-- Python `method == "name"` where `method` came from `req.get("method")`:
equality with a string literal holds only for the equal string. -/
def pyEqStr (j : Json) (s : String) : Bool :=
  match j with
  | .str t => t == s
  | _ => false

/-- The body of the `for a in params.get("acls", [])` loop in the `setACL`
branch: build one `Murmur.ACL` from one JSON entry, field by field in source
order, with the source's defaults. -/
def buildACL (a : Json) : Except Exc ACL :=
  match pyGetDefault a "applyHere" (.bool true) with
  | .error e => .error e
  | .ok vApplyHere =>
  match pyGetDefault a "applySubs" (.bool true) with
  | .error e => .error e
  | .ok vApplySubs =>
  match pyGetDefault a "inherited" (.bool false) with
  | .error e => .error e
  | .ok vInherited =>
  match pyGetDefault a "userid" (.num (-1)) with
  | .error e => .error e
  | .ok vUserid =>
  match pyInt vUserid with
  | .error e => .error e
  | .ok nUserid =>
  match pyGetDefault a "group" (.str "") with
  | .error e => .error e
  | .ok vGroup =>
  match pyGetDefault a "allow" (.num 0) with
  | .error e => .error e
  | .ok vAllow =>
  match pyInt vAllow with
  | .error e => .error e
  | .ok nAllow =>
  match pyGetDefault a "deny" (.num 0) with
  | .error e => .error e
  | .ok vDeny =>
  match pyInt vDeny with
  | .error e => .error e
  | .ok nDeny =>
    .ok ⟨pyBool vApplyHere, pyBool vApplySubs, pyBool vInherited,
         nUserid, pyStr vGroup, nAllow, nDeny⟩

/-- The whole `acls`-building loop of the `setACL` branch, left to right. -/
def buildACLs : List Json → Except Exc (List ACL)
  | [] => .ok []
  | a :: rest =>
    match buildACL a with
    | .error e => .error e
    | .ok acl =>
      match buildACLs rest with
      | .error e => .error e
      | .ok acls => .ok (acl :: acls)

/-- The `name_map` dictionary of the `getRegistration` branch. -/
def nameMap : List (Int × String) :=
  [(0, "UserName"), (1, "UserEmail"), (2, "UserComment"), (3, "UserHash"),
   (4, "UserPassword"), (5, "UserLastActive"), (6, "UserKDFIterations")]

/-- Python `d.get(k, default)` for an int-keyed dict of strings. -/
def intKeyGetD (m : List (Int × String)) (k : Int) (d : String) : String :=
  (((m.filter (fun kv => kv.1 == k)).getLast?).map (fun kv => kv.2)).getD d

/-- The JSON shaping of one ACL entry in the `getACL` branch. -/
def aclToJson (a : ACL) : Json :=
  .obj [("applyHere", .bool a.applyHere), ("applySubs", .bool a.applySubs),
        ("inherited", .bool a.inherited), ("userid", .num a.userid),
        ("group", .str a.group), ("allow", .num a.allow), ("deny", .num a.deny)]

/-- The script's `dispatch(server, method, params)`: route one JSON-RPC
method call to the corresponding remote operation.  The returned list is the
trace of remote invocations actually performed (empty when the branch fails
before reaching its remote call). -/
def dispatch (server : ServerPrx) (method : Json) (params : Json) :
    Except Exc Json × List RemoteCall :=
  if pyEqStr method "registerUser" then
    match pyIndex params "username" with
    | .error e => (.error e, [])
    | .ok username =>
    match pyIndex params "password" with
    | .error e => (.error e, [])
    | .ok password =>
      let info := [(UserInfoUserName, username), (UserInfoUserPassword, password)]
      match server.registerUser info with
      | .error e => (.error e, [.registerUser info])
      | .ok userId => (.ok (.num userId), [.registerUser info])
  else if pyEqStr method "unregisterUser" then
    match pyIndex params "userId" with
    | .error e => (.error e, [])
    | .ok v =>
    match pyInt v with
    | .error e => (.error e, [])
    | .ok n =>
      match server.unregisterUser n with
      | .error e => (.error e, [.unregisterUser n])
      | .ok _ => (.ok .null, [.unregisterUser n])
  else if pyEqStr method "updateRegistration" then
    match pyGetDefault params "updates" (.obj []) with
    | .error e => (.error e, [])
    | .ok updates =>
    match pyContains updates "username" with
    | .error e => (.error e, [])
    | .ok hasName =>
    match (if hasName then (pyIndex updates "username").map (fun v => [(UserInfoUserName, v)])
           else .ok []) with
    | .error e => (.error e, [])
    | .ok infoName =>
    match pyContains updates "password" with
    | .error e => (.error e, [])
    | .ok hasPass =>
    match (if hasPass then (pyIndex updates "password").map (fun v => [(UserInfoUserPassword, v)])
           else .ok []) with
    | .error e => (.error e, [])
    | .ok infoPass =>
      let info := infoName ++ infoPass
      match pyIndex params "userId" with
      | .error e => (.error e, [])
      | .ok v =>
      match pyInt v with
      | .error e => (.error e, [])
      | .ok n =>
        match server.updateRegistration n info with
        | .error e => (.error e, [.updateRegistration n info])
        | .ok _ => (.ok .null, [.updateRegistration n info])
  else if pyEqStr method "getRegisteredUsers" then
    match pyGetDefault params "filter" (.str "") with
    | .error e => (.error e, [])
    | .ok f =>
      match server.getRegisteredUsers f with
      | .error e => (.error e, [.getRegisteredUsers f])
      | .ok result =>
        (.ok (.obj (result.map (fun kv => (toString kv.1, .str kv.2)))),
         [.getRegisteredUsers f])
  else if pyEqStr method "setACL" then
    match pyGetDefault params "acls" (.arr []) with
    | .error e => (.error e, [])
    | .ok aclsJson =>
    match pyIterate aclsJson with
    | .error e => (.error e, [])
    | .ok entries =>
    match buildACLs entries with
    | .error e => (.error e, [])
    | .ok acls =>
    match pyIndex params "channelId" with
    | .error e => (.error e, [])
    | .ok cidJson =>
    match pyInt cidJson with
    | .error e => (.error e, [])
    | .ok cid =>
    match pyGetDefault params "inherit" (.bool true) with
    | .error e => (.error e, [])
    | .ok inhJson =>
      match server.setACL cid acls [] (pyBool inhJson) with
      | .error e => (.error e, [.setACL cid acls [] (pyBool inhJson)])
      | .ok _ => (.ok .null, [.setACL cid acls [] (pyBool inhJson)])
  else if pyEqStr method "getACL" then
    match pyIndex params "channelId" with
    | .error e => (.error e, [])
    | .ok cidJson =>
    match pyInt cidJson with
    | .error e => (.error e, [])
    | .ok cid =>
      match server.getACL cid with
      | .error e => (.error e, [.getACL cid])
      | .ok res =>
        (.ok (.obj [("acls", .arr (res.1.map aclToJson)), ("inherit", .bool res.2.2)]),
         [.getACL cid])
  else if pyEqStr method "getRegistration" then
    match pyIndex params "userId" with
    | .error e => (.error e, [])
    | .ok v =>
    match pyInt v with
    | .error e => (.error e, [])
    | .ok n =>
      match server.getRegistration n with
      | .error e => (.error e, [.getRegistration n])
      | .ok result =>
        (.ok (.obj (result.map (fun kv => (intKeyGetD nameMap kv.1 (toString kv.1), .str kv.2)))),
         [.getRegistration n])
  else
    (.error (.valueError ("Unknown method: " ++ pyStr method)), [])

/-- The `except` chain of the command loop (lines 178-183 of the script):
invalid-user and invalid-channel exceptions render as `Murmur: <class name>`,
an invalid-secret exception as the fixed hint, and every other exception as
its own `str(e)` text. -/
def translateExc : Exc → String
  | .invalidUser => "Murmur: InvalidUserException"
  | .invalidChannel => "Murmur: InvalidChannelException"
  | .invalidSecret => "Murmur: InvalidSecret — check MUMBLE_ICE_SECRET"
  | e => excMessage e

/-- The error-response envelope `json.dumps(\x7b"id": i, "error": m\x7d)`. -/
def errResp (i : Json) (m : String) : Json :=
  .obj [("id", i), ("error", .str m)]

/-- The result-response envelope `json.dumps(\x7b"id": i, "result": v\x7d)`. -/
def okResp (i : Json) (v : Json) : Json :=
  .obj [("id", i), ("result", v)]

/-- The body of the command loop for one (already stripped, non-blank) input
line: `req_id` starts as the empty string, is replaced once the id has been
recovered, and whichever exception escapes is rendered by the `except` chain
into an error envelope.  Returns the response line and the remote-call
trace. -/
def processLine (server : ServerPrx) (line : String) : Json × List RemoteCall :=
  match jsonLoads line with
  | .error m => (errResp (.str "") m, [])
  | .ok req =>
    match pyGetDefault req "id" (.str "") with
    | .error e => (errResp (.str "") (translateExc e), [])
    | .ok reqId =>
      match pyGetDefault req "method" (.str "") with
      | .error e => (errResp reqId (translateExc e), [])
      | .ok method =>
        match pyGetDefault req "params" (.obj []) with
        | .error e => (errResp reqId (translateExc e), [])
        | .ok params =>
          match dispatch server method params with
          | (.ok v, calls) => (okResp reqId v, calls)
          | (.error e, calls) => (errResp reqId (translateExc e), calls)

/-- One iteration of `for line in sys.stdin`: strip the line, skip it when
blank, otherwise process it. -/
def handleLine (server : ServerPrx) (line : String) : Option (Json × List RemoteCall) :=
  let stripped := pyStrip line
  if stripped = "" then none
  else some (processLine server stripped)

/-- The command loop over the whole input: the response lines printed to
stdout in order, and the concatenated remote-call trace. -/
def runLoop (server : ServerPrx) : List String → List Json × List RemoteCall
  | [] => ([], [])
  | l :: ls =>
    match handleLine server l with
    | none => runLoop server ls
    | some (resp, calls) =>
      let rest := runLoop server ls
      (resp :: rest.1, calls ++ rest.2)

/-
Process lifecycle.  Startup talks to the Ice runtime and the remote Meta
object; both are external collaborators, so their outcomes are supplied as
an abstract environment.  `initOutcome` is `create_communicator` (an
exception there leaves `communicator` unset); `castOutcome` covers
`stringToProxy` + `checkedCast` (`.ok false` models a null cast result);
`serverOutcome` covers `meta.getServer(1)` (`.ok false` models a null
handle).  The `.error` payloads are the `str(e)` of the raised exception.
-/

structure StartupEnv where
  initOutcome : Except String Unit
  castOutcome : Except String Bool
  serverOutcome : Except String Bool

/-- Everything observable about one run of `main()`: stdout lines (as JSON
values), stderr lines, the exit status, whether the communicator was ever
created, and how many times `communicator.destroy()` ran. -/
structure MainResult where
  stdout : List Json
  stderr : List String
  exitCode : Nat
  commCreated : Bool
  destroyCount : Nat
  calls : List RemoteCall

/-- The `\x7b"ready": true\x7d` line. -/
def readyJson : Json := .obj [("ready", .bool true)]

/-- The stderr output of the fatal-startup handler: the `[mumble-ice] Fatal:`
line followed by the traceback (abstracted to one line here). -/
def fatalStderr (msg : String) : List String :=
  ["[mumble-ice] Fatal: " ++ msg, "Traceback (most recent call last): ..."]

/-- The script's `main()`: establish the session, emit the ready line, run
the command loop, and in the `finally` block destroy the communicator iff it
was created.  Fatal startup errors print to stderr and exit with status 1
before any stdout line is written. -/
def mainRun (env : StartupEnv) (server : ServerPrx) (stdin : List String) : MainResult :=
  match env.initOutcome with
  | .error msg =>
    { stdout := [], stderr := fatalStderr msg, exitCode := 1,
      commCreated := false, destroyCount := 0, calls := [] }
  | .ok _ =>
    match env.castOutcome with
    | .error msg =>
      { stdout := [], stderr := fatalStderr msg, exitCode := 1,
        commCreated := true, destroyCount := 1, calls := [] }
    | .ok false =>
      { stdout := [],
        stderr := fatalStderr "Cannot cast ICE proxy to Murmur.Meta — wrong host/port?",
        exitCode := 1, commCreated := true, destroyCount := 1, calls := [] }
    | .ok true =>
      match env.serverOutcome with
      | .error msg =>
        { stdout := [], stderr := fatalStderr msg, exitCode := 1,
          commCreated := true, destroyCount := 1, calls := [] }
      | .ok false =>
        { stdout := [],
          stderr := fatalStderr "getServer(1) returned null — is virtual server 1 running?",
          exitCode := 1, commCreated := true, destroyCount := 1, calls := [] }
      | .ok true =>
        let looped := runLoop server stdin
        { stdout := readyJson :: looped.1, stderr := [], exitCode := 0,
          commCreated := true, destroyCount := 1, calls := looped.2 }

/-
Spec-side definitions: these follow the specification's words (not the
script) and are compared against the embedded code in the claim theorems.
-/

/-- Spec-side: the id recovered from one stripped request line — the line's
`id` member when it parses as a JSON object, the empty string when no id
could be recovered. -/
def specRecoverId (line : String) : Json :=
  match jsonLoads line with
  | .ok (.obj mems) => (pyLookup mems "id").getD (.str "")
  | _ => .str ""

/-- Spec-side: the readable name of a registration field index — the seven
fixed names for indices 0 through 6, the raw numeric key as a string for any
other index. -/
def regFieldNameSpec (k : Int) : String :=
  if k = 0 then "UserName"
  else if k = 1 then "UserEmail"
  else if k = 2 then "UserComment"
  else if k = 3 then "UserHash"
  else if k = 4 then "UserPassword"
  else if k = 5 then "UserLastActive"
  else if k = 6 then "UserKDFIterations"
  else toString k

/-- A stdout line whose first member key is `ready` (the ready signal is the
only such line the script can print). -/
def isReadyLine : Json → Bool
  | .obj ((k, _) :: _) => k == "ready"
  | _ => false

/-- How many ready lines a stdout transcript contains. -/
def countReady (outs : List Json) : Nat :=
  (outs.filter isReadyLine).length

/-- Startup succeeded: the communicator was created, the meta cast returned
a proxy and `getServer(1)` returned a handle. -/
def startupOk (env : StartupEnv) : Prop :=
  env.initOutcome = .ok () ∧ env.castOutcome = .ok true ∧ env.serverOutcome = .ok true

/-
Concrete fixtures used by the witness theorems.
-/

/-- A remote server on which every operation succeeds with simple data. -/
def trivServer : ServerPrx where
  registerUser := fun _ => .ok 5
  unregisterUser := fun _ => .ok ()
  updateRegistration := fun _ _ => .ok ()
  getRegisteredUsers := fun _ => .ok [(7, "alice")]
  setACL := fun _ _ _ _ => .ok ()
  getACL := fun _ => .ok ([⟨true, true, false, -1, "admin", 908, 0⟩], [⟨"all"⟩], true)
  getRegistration := fun _ => .ok [(0, "alice"), (1, "a@b"), (9, "x")]

/-- A remote server whose `getACL` raises `InvalidChannelException`. -/
def chanFailServer : ServerPrx :=
  { trivServer with getACL := fun _ => .error .invalidChannel }

/-
Helper lemmas.
-/

/-- The command loop's stdout is the per-line response of every non-blank
stripped input line, in input order. -/
theorem runLoop_outputs (server : ServerPrx) (lines : List String) :
    (runLoop server lines).1
      = ((lines.map pyStrip).filter (fun l => l != "")).map
          (fun l => (processLine server l).1) := by
  induction lines with
  | nil => rfl
  | cons l ls ih =>
    by_cases hb : pyStrip l = ""
    · simp [runLoop, handleLine, hb, ih]
    · simp [runLoop, handleLine, hb, ih]

/-- Every response the loop body produces is a single envelope carrying
exactly a result or exactly an error, under the recovered id. -/
theorem processLine_envelope (server : ServerPrx) (l : String) :
    (∃ v, (processLine server l).1 = okResp (specRecoverId l) v)
    ∨ (∃ m, (processLine server l).1 = errResp (specRecoverId l) m) := by
  unfold processLine specRecoverId
  cases hj : jsonLoads l with
  | error m => right; exact ⟨m, rfl⟩
  | ok req =>
    cases req with
    | null => right; exact ⟨_, rfl⟩
    | bool b => right; exact ⟨_, rfl⟩
    | num n => right; exact ⟨_, rfl⟩
    | str s => right; exact ⟨_, rfl⟩
    | arr xs => right; exact ⟨_, rfl⟩
    | obj mems =>
      simp only [pyGetDefault]
      rcases hd : dispatch server ((pyLookup mems "method").getD (.str ""))
          ((pyLookup mems "params").getD (.obj [])) with ⟨res, calls⟩
      cases res with
      | ok v => left; exact ⟨v, by simp [hd]⟩
      | error e => right; exact ⟨translateExc e, by simp [hd]⟩

/-- Every response the loop body produces is a JSON object whose first
member key is `id`. -/
theorem processLine_shape (server : ServerPrx) (l : String) :
    ∃ i rest, (processLine server l).1 = .obj (("id", i) :: rest) := by
  rcases processLine_envelope server l with ⟨v, h⟩ | ⟨m, h⟩
  · exact ⟨specRecoverId l, [("result", v)], h⟩
  · exact ⟨specRecoverId l, [("error", .str m)], h⟩

/-- No response line of the command loop is a ready line. -/
theorem runLoop_no_ready (server : ServerPrx) (lines : List String) :
    ∀ r ∈ (runLoop server lines).1, isReadyLine r = false := by
  intro r hr
  rw [runLoop_outputs] at hr
  rcases List.mem_map.mp hr with ⟨l, _, rfl⟩
  rcases processLine_shape server l with ⟨i, rest, h⟩
  rw [h]
  rfl

/-- Claim C1: for every non-blank input line read by the protocol loop,
exactly one response line is written, carrying either a result member or an
error member (never both); its id equals the id recovered from that request
(empty string when none could be recovered); responses appear in exactly the
order their request lines were read; a per-request error never terminates
the loop; blank lines produce no output line. -/
theorem c1_protocol_loop (server : ServerPrx) (lines : List String) :
    ((runLoop server lines).1
      = ((lines.map pyStrip).filter (fun l => l != "")).map
          (fun l => (processLine server l).1))
    ∧ ∀ l : String, pyStrip l ≠ "" →
        (∃ v, (processLine server (pyStrip l)).1 = okResp (specRecoverId (pyStrip l)) v)
        ∨ (∃ m, (processLine server (pyStrip l)).1 = errResp (specRecoverId (pyStrip l)) m) := by
  refine ⟨runLoop_outputs server lines, ?_⟩
  intro l _
  exact processLine_envelope server (pyStrip l)

/-- Claim C2: the ready line is emitted at most once, only after the session
is fully established and before any request line is read; on any startup
failure the process writes a diagnostic to stderr, exits with status 1, and
never writes a ready line or any response line. -/
theorem c2_ready_signal (env : StartupEnv) (server : ServerPrx) (stdin : List String) :
    countReady (mainRun env server stdin).stdout ≤ 1
    ∧ (¬ startupOk env →
        (mainRun env server stdin).stdout = []
        ∧ (mainRun env server stdin).exitCode = 1
        ∧ (mainRun env server stdin).stderr ≠ [])
    ∧ (startupOk env →
        (mainRun env server stdin).stdout = readyJson :: (runLoop server stdin).1
        ∧ (mainRun env server stdin).exitCode = 0) := by
  obtain ⟨i, c, s⟩ := env
  have hloop : countReady (readyJson :: (runLoop server stdin).1) = 1 := by
    unfold countReady
    rw [List.filter_cons_of_pos (by rfl),
        List.filter_eq_nil_iff.mpr (by
          intro r hr
          simp [runLoop_no_ready server stdin r hr])]
    rfl
  cases i with
  | error m =>
    refine ⟨by simp [mainRun, countReady], fun _ => by simp [mainRun, fatalStderr], fun h => ?_⟩
    exact absurd h.1 (by simp)
  | ok u =>
    cases c with
    | error m =>
      refine ⟨by simp [mainRun, countReady], fun _ => by simp [mainRun, fatalStderr], fun h => ?_⟩
      exact absurd h.2.1 (by simp)
    | ok cb =>
      cases cb with
      | false =>
        refine ⟨by simp [mainRun, countReady], fun _ => by simp [mainRun, fatalStderr], fun h => ?_⟩
        exact absurd h.2.1 (by simp)
      | true =>
        cases s with
        | error m =>
          refine ⟨by simp [mainRun, countReady], fun _ => by simp [mainRun, fatalStderr], fun h => ?_⟩
          exact absurd h.2.2 (by simp)
        | ok sb =>
          cases sb with
          | false =>
            refine ⟨by simp [mainRun, countReady], fun _ => by simp [mainRun, fatalStderr],
                    fun h => ?_⟩
            exact absurd h.2.2 (by simp)
          | true =>
            refine ⟨?_, fun h => absurd ⟨rfl, rfl, rfl⟩ h, fun _ => ⟨rfl, rfl⟩⟩
            calc countReady (mainRun ⟨.ok u, .ok true, .ok true⟩ server stdin).stdout
                = countReady (readyJson :: (runLoop server stdin).1) := rfl
              _ = 1 := hloop
              _ ≤ 1 := le_refl 1

/-- Claim C9: on every exit path of the process the communicator is
destroyed exactly once when it was created, and it is created exactly when
`Ice.initialize` in `create_communicator` succeeded (when it was never
created there is nothing to release). -/
theorem c9_teardown (env : StartupEnv) (server : ServerPrx) (stdin : List String) :
    ((mainRun env server stdin).destroyCount
        = (if (mainRun env server stdin).commCreated then 1 else 0))
    ∧ ((mainRun env server stdin).commCreated ↔ env.initOutcome = .ok ()) := by
  obtain ⟨i, c, s⟩ := env
  cases i with
  | error m => exact ⟨rfl, by simp [mainRun]⟩
  | ok u =>
    cases c with
    | error m => exact ⟨rfl, by simp [mainRun]⟩
    | ok cb =>
      cases cb with
      | false => exact ⟨rfl, by simp [mainRun]⟩
      | true =>
        cases s with
        | error m => exact ⟨rfl, by simp [mainRun]⟩
        | ok sb =>
          cases sb with
          | false => exact ⟨rfl, by simp [mainRun]⟩
          | true => exact ⟨rfl, by simp [mainRun]⟩

/-- Claim C3: for every request whose method is not one of the seven names
in the fixed operation table, the dispatcher makes no remote call and the
response error message is exactly `Unknown method: <method>`. -/
theorem c3_unknown_method (server : ServerPrx) (m : String) (params : Json)
    (h : m ∉ (["registerUser", "unregisterUser", "updateRegistration",
               "getRegisteredUsers", "setACL", "getACL", "getRegistration"] : List String)) :
    dispatch server (.str m) params
      = (.error (.valueError ("Unknown method: " ++ m)), [])
    ∧ translateExc (.valueError ("Unknown method: " ++ m)) = "Unknown method: " ++ m := by
  simp only [List.mem_cons, List.mem_singleton, not_or] at h
  obtain ⟨h1, h2, h3, h4, h5, h6, h7, _⟩ := h
  refine ⟨?_, rfl⟩
  simp [dispatch, pyEqStr, pyStr, h1, h2, h3, h4, h5, h6, h7]

/-- The command loop on a non-blank head line processes that line and then
continues with the rest of the input. -/
theorem runLoop_cons_nonblank (server : ServerPrx) (l : String) (ls : List String)
    (hb : pyStrip l ≠ "") :
    (runLoop server (l :: ls)).1
        = (processLine server (pyStrip l)).1 :: (runLoop server ls).1
    ∧ (runLoop server (l :: ls)).2
        = (processLine server (pyStrip l)).2 ++ (runLoop server ls).2 := by
  constructor <;> simp [runLoop, handleLine, hb]

/-- Claim C4: every exception raised during one request's handling is
translated into a string error — invalid-user and invalid-channel become
`Murmur: <ExceptionKindName>`, an invalid-secret exception becomes the fixed
hint to check the secret configuration, any other exception becomes its own
textual message — and the loop continues with the same session. -/
theorem c4_failure_translator (server : ServerPrx) (l : String) (ls : List String)
    (req : List (String × Json)) (e : Exc) (calls : List RemoteCall)
    (hb : pyStrip l ≠ "")
    (hp : jsonLoads (pyStrip l) = .ok (.obj req))
    (hd : dispatch server ((pyLookup req "method").getD (.str ""))
            ((pyLookup req "params").getD (.obj [])) = (.error e, calls)) :
    (runLoop server (l :: ls)).1
      = errResp ((pyLookup req "id").getD (.str ""))
          (match e with
           | .invalidUser => "Murmur: InvalidUserException"
           | .invalidChannel => "Murmur: InvalidChannelException"
           | .invalidSecret => "Murmur: InvalidSecret — check MUMBLE_ICE_SECRET"
           | e => excMessage e)
        :: (runLoop server ls).1 := by
  rw [(runLoop_cons_nonblank server l ls hb).1]
  have hpl : (processLine server (pyStrip l)).1
      = errResp ((pyLookup req "id").getD (.str "")) (translateExc e) := by
    unfold processLine
    rw [hp]
    simp [pyGetDefault, hd]
  rw [hpl]
  cases e <;> rfl

/-- Claim C5: for every id-bearing operation the id parameter is coerced to
an integer before the remote call (so a string id like `"42"` reaches the
remote side as the integer 42, and `unregisterUser` then responds with a
null result); when the coercion fails no remote call is made, the request
fails locally, and a failing string coercion always carries the message
quoting the malformed literal. -/
theorem c5_id_coercion (server : ServerPrx) (idj : Json) :
    (∀ n : Int, pyInt idj = .ok n →
        (∃ r, dispatch server (.str "unregisterUser") (.obj [("userId", idj)])
            = (r, [.unregisterUser n]))
      ∧ (∃ r, dispatch server (.str "updateRegistration") (.obj [("userId", idj)])
            = (r, [.updateRegistration n []]))
      ∧ (∃ r, dispatch server (.str "getACL") (.obj [("channelId", idj)])
            = (r, [.getACL n]))
      ∧ (∃ r, dispatch server (.str "getRegistration") (.obj [("userId", idj)])
            = (r, [.getRegistration n]))
      ∧ (∃ r, dispatch server (.str "setACL") (.obj [("channelId", idj)])
            = (r, [.setACL n [] [] true]))
      ∧ (server.unregisterUser n = .ok () →
          dispatch server (.str "unregisterUser") (.obj [("userId", idj)])
            = (.ok .null, [.unregisterUser n])))
    ∧ (∀ e : Exc, pyInt idj = .error e →
        dispatch server (.str "unregisterUser") (.obj [("userId", idj)]) = (.error e, [])
      ∧ dispatch server (.str "updateRegistration") (.obj [("userId", idj)]) = (.error e, [])
      ∧ dispatch server (.str "getACL") (.obj [("channelId", idj)]) = (.error e, [])
      ∧ dispatch server (.str "getRegistration") (.obj [("userId", idj)]) = (.error e, [])
      ∧ dispatch server (.str "setACL") (.obj [("channelId", idj)]) = (.error e, []))
    ∧ (∀ (s : String) (e : Exc), pyInt (.str s) = .error e →
        e = .valueError ("invalid literal for int() with base 10: \x27" ++ s ++ "\x27")) := by
  refine ⟨?_, ?_, ?_⟩
  · intro n hn
    refine ⟨?_, ?_, ?_, ?_, ?_, ?_⟩
    · cases hu : server.unregisterUser n with
      | ok r => exact ⟨.ok .null, by simp [dispatch, pyEqStr, pyIndex, pyLookup, hn, hu]⟩
      | error e => exact ⟨.error e, by simp [dispatch, pyEqStr, pyIndex, pyLookup, hn, hu]⟩
    · cases hu : server.updateRegistration n [] with
      | ok r =>
        exact ⟨.ok .null,
          by simp [dispatch, pyEqStr, pyIndex, pyGetDefault, pyContains, pyLookup, hn, hu]⟩
      | error e =>
        exact ⟨.error e,
          by simp [dispatch, pyEqStr, pyIndex, pyGetDefault, pyContains, pyLookup, hn, hu]⟩
    · cases hu : server.getACL n with
      | ok r =>
        exact ⟨.ok (.obj [("acls", .arr (r.1.map aclToJson)), ("inherit", .bool r.2.2)]),
          by simp [dispatch, pyEqStr, pyIndex, pyLookup, hn, hu]⟩
      | error e => exact ⟨.error e, by simp [dispatch, pyEqStr, pyIndex, pyLookup, hn, hu]⟩
    · cases hu : server.getRegistration n with
      | ok r =>
        exact ⟨.ok (.obj (r.map (fun kv => (intKeyGetD nameMap kv.1 (toString kv.1), .str kv.2)))),
          by simp [dispatch, pyEqStr, pyIndex, pyLookup, hn, hu]⟩
      | error e => exact ⟨.error e, by simp [dispatch, pyEqStr, pyIndex, pyLookup, hn, hu]⟩
    · cases hu : server.setACL n [] [] true with
      | ok r =>
        exact ⟨.ok .null,
          by simp [dispatch, pyEqStr, pyIndex, pyGetDefault, pyIterate, buildACLs, pyLookup,
                   pyBool, hn, hu]⟩
      | error e =>
        exact ⟨.error e,
          by simp [dispatch, pyEqStr, pyIndex, pyGetDefault, pyIterate, buildACLs, pyLookup,
                   pyBool, hn, hu]⟩
    · intro hu
      simp [dispatch, pyEqStr, pyIndex, pyLookup, hn, hu]
  · intro e he
    refine ⟨?_, ?_, ?_, ?_, ?_⟩
    · simp [dispatch, pyEqStr, pyIndex, pyLookup, he]
    · simp [dispatch, pyEqStr, pyIndex, pyGetDefault, pyContains, pyLookup, he]
    · simp [dispatch, pyEqStr, pyIndex, pyLookup, he]
    · simp [dispatch, pyEqStr, pyIndex, pyLookup, he]
    · simp [dispatch, pyEqStr, pyIndex, pyGetDefault, pyIterate, buildACLs, pyLookup, he]
  · intro s e he
    have he2 : pyIntOfStr s = .error e := he
    unfold pyIntOfStr at he2
    by_cases hd : (stripSign (pyStrip s).data).2 ≠ [] ∧ (stripSign (pyStrip s).data).2.all (·.isDigit)
    · rw [if_pos hd] at he2
      cases he2
    · rw [if_neg hd] at he2
      cases he2
      rfl

/-- The code's `name_map.get(int(k), str(k))` agrees with the spec's fixed
field-name table on every index. -/
theorem intKeyGetD_nameMap (k : Int) :
    intKeyGetD nameMap k (toString k) = regFieldNameSpec k := by
  by_cases h0 : k = 0
  · subst h0; rfl
  by_cases h1 : k = 1
  · subst h1; rfl
  by_cases h2 : k = 2
  · subst h2; rfl
  by_cases h3 : k = 3
  · subst h3; rfl
  by_cases h4 : k = 4
  · subst h4; rfl
  by_cases h5 : k = 5
  · subst h5; rfl
  by_cases h6 : k = 6
  · subst h6; rfl
  have hne : ∀ a : Int, k ≠ a → (a == k) = false := by
    intro a ha
    exact beq_eq_false_iff_ne.mpr (Ne.symm ha)
  simp [intKeyGetD, nameMap, regFieldNameSpec, h0, h1, h2, h3, h4, h5, h6,
        hne 0 h0, hne 1 h1, hne 2 h2, hne 3 h3, hne 4 h4, hne 5 h5, hne 6 h6]

/-- Claim C6: the `getRegisteredUsers` response maps each integer user id to
its display name under a string-typed key, and the `getRegistration`
response maps field indices 0 through 6 to the fixed names UserName,
UserEmail, UserComment, UserHash, UserPassword, UserLastActive,
UserKDFIterations while any other field index passes through as its raw
numeric key rendered as a string; all keys of both responses are
string-typed by construction (`Json.obj` carries `String` keys only). -/
theorem c6_string_keys (server : ServerPrx) (params : List (String × Json)) :
    (∀ users : List (Int × String),
        server.getRegisteredUsers ((pyLookup params "filter").getD (.str "")) = .ok users →
        dispatch server (.str "getRegisteredUsers") (.obj params)
          = (.ok (.obj (users.map (fun kv => (toString kv.1, .str kv.2)))),
             [.getRegisteredUsers ((pyLookup params "filter").getD (.str ""))]))
    ∧ (∀ (idj : Json) (n : Int) (fields : List (Int × String)),
        pyLookup params "userId" = some idj → pyInt idj = .ok n →
        server.getRegistration n = .ok fields →
        dispatch server (.str "getRegistration") (.obj params)
          = (.ok (.obj (fields.map (fun kv => (regFieldNameSpec kv.1, .str kv.2)))),
             [.getRegistration n])) := by
  constructor
  · intro users hu
    simp [dispatch, pyEqStr, pyGetDefault, hu]
  · intro idj n fields hid hn hf
    have hkey : (fun kv : Int × String => (intKeyGetD nameMap kv.1 (toString kv.1), Json.str kv.2))
        = (fun kv : Int × String => (regFieldNameSpec kv.1, Json.str kv.2)) := by
      funext kv
      rw [intKeyGetD_nameMap]
    simp [dispatch, pyEqStr, pyIndex, hid, hn, hf, hkey]

/-- A successful `buildACLs` run builds the output entries from the input
entries pointwise and in order. -/
theorem buildACLs_forall2 (entries : List Json) (acls : List ACL)
    (h : buildACLs entries = .ok acls) :
    List.Forall₂ (fun e a => buildACL e = .ok a) entries acls := by
  induction entries generalizing acls with
  | nil =>
    cases h
    exact .nil
  | cons a rest ih =>
    unfold buildACLs at h
    cases ha : buildACL a with
    | error e => rw [ha] at h; cases h
    | ok acl =>
      rw [ha] at h
      cases hr : buildACLs rest with
      | error e => rw [hr] at h; cases h
      | ok acls2 =>
        rw [hr] at h
        cases h
        exact .cons ha (ih acls2 hr)

/-- Claim C7: `setACL` sends the caller-supplied ACL entries in exactly
their input order, each entry's missing fields filled with the defaults
applyHere = true, applySubs = true, inherited = false, userid = -1,
group = "", allow = 0, deny = 0; the `inherit` flag defaults to true, the
group-definition list sent to the remote side is always empty, and the
response result is null. -/
theorem c7_setACL (server : ServerPrx) (cid : Int) (inh : Bool) (entries : List Json)
    (acls : List ACL) (hb : buildACLs entries = .ok acls) :
    (server.setACL cid acls [] inh = .ok () →
        dispatch server (.str "setACL")
            (.obj [("channelId", .num cid), ("acls", .arr entries), ("inherit", .bool inh)])
          = (.ok .null, [.setACL cid acls [] inh]))
    ∧ (server.setACL cid acls [] true = .ok () →
        dispatch server (.str "setACL")
            (.obj [("channelId", .num cid), ("acls", .arr entries)])
          = (.ok .null, [.setACL cid acls [] true]))
    ∧ List.Forall₂ (fun e a => buildACL e = .ok a) entries acls
    ∧ buildACL (.obj []) = .ok ⟨true, true, false, -1, "", 0, 0⟩ := by
  refine ⟨?_, ?_, buildACLs_forall2 entries acls hb, rfl⟩
  · intro hs
    simp [dispatch, pyEqStr, pyGetDefault, pyIndex, pyIterate, pyLookup, pyBool, pyInt, hb, hs]
  · intro hs
    simp [dispatch, pyEqStr, pyGetDefault, pyIndex, pyIterate, pyLookup, pyBool, pyInt, hb, hs]

/-- Claim C8: the `getACL` response is exactly an object with an `acls`
member (the entries with their seven fields) and an `inherit` boolean; the
group-definition list returned by the remote side (here universally
quantified) never appears in the response. -/
theorem c8_getACL (server : ServerPrx) (params : List (String × Json)) (idj : Json)
    (cid : Int) (acls : List ACL) (groups : List GroupDef) (inh : Bool)
    (h1 : pyLookup params "channelId" = some idj) (h2 : pyInt idj = .ok cid)
    (h3 : server.getACL cid = .ok (acls, groups, inh)) :
    dispatch server (.str "getACL") (.obj params)
      = (.ok (.obj [("acls", .arr (acls.map (fun a =>
            .obj [("applyHere", .bool a.applyHere), ("applySubs", .bool a.applySubs),
                  ("inherited", .bool a.inherited), ("userid", .num a.userid),
                  ("group", .str a.group), ("allow", .num a.allow),
                  ("deny", .num a.deny)]))),
              ("inherit", .bool inh)]),
         [.getACL cid]) := by
  simp [dispatch, pyEqStr, pyIndex, h1, h2, h3, aclToJson]

/-- Claim C10: an input line that parses as valid JSON but is not a JSON
object produces exactly one error response whose id is the empty string,
makes no remote call, and the loop continues serving subsequent requests. -/
theorem c10_nonobject_json (server : ServerPrx) (l : String) (ls : List String) (j : Json)
    (hb : pyStrip l ≠ "") (hp : jsonLoads (pyStrip l) = .ok j) (hno : ∀ mems, j ≠ .obj mems) :
    (runLoop server (l :: ls)).1
        = errResp (.str "")
            ("\x27" ++ pyTypeName j ++ "\x27 object has no attribute \x27get\x27")
          :: (runLoop server ls).1
    ∧ (runLoop server (l :: ls)).2 = (runLoop server ls).2 := by
  have hpl : processLine server (pyStrip l)
      = (errResp (.str "")
          ("\x27" ++ pyTypeName j ++ "\x27 object has no attribute \x27get\x27"), []) := by
    unfold processLine
    rw [hp]
    cases j with
    | obj mems => exact absurd rfl (hno mems)
    | null => rfl
    | bool b => rfl
    | num n => rfl
    | str s => rfl
    | arr xs => rfl
  obtain ⟨ho, hc⟩ := runLoop_cons_nonblank server l ls hb
  rw [ho, hc, hpl]
  exact ⟨rfl, rfl⟩

/-- Witness for C1 at a concrete input: a blank line plus scenario A's
request line against a server holding one registered user. -/
theorem c1_protocol_loop_witness :
    (runLoop trivServer
        ["", "\x7b\"id\":\"1\",\"method\":\"getRegisteredUsers\",\"params\":\x7b\x7d\x7d"]).1
      = [okResp (.str "1") (.obj [("7", .str "alice")])]
    ∧ ((∃ v, (processLine trivServer
          (pyStrip "\x7b\"id\":\"1\",\"method\":\"getRegisteredUsers\",\"params\":\x7b\x7d\x7d")).1
        = okResp (specRecoverId
            (pyStrip "\x7b\"id\":\"1\",\"method\":\"getRegisteredUsers\",\"params\":\x7b\x7d\x7d")) v)
      ∨ (∃ m, (processLine trivServer
          (pyStrip "\x7b\"id\":\"1\",\"method\":\"getRegisteredUsers\",\"params\":\x7b\x7d\x7d")).1
        = errResp (specRecoverId
            (pyStrip "\x7b\"id\":\"1\",\"method\":\"getRegisteredUsers\",\"params\":\x7b\x7d\x7d")) m)) := by
  have h := c1_protocol_loop trivServer
    ["", "\x7b\"id\":\"1\",\"method\":\"getRegisteredUsers\",\"params\":\x7b\x7d\x7d"]
  refine ⟨?_, h.2 "\x7b\"id\":\"1\",\"method\":\"getRegisteredUsers\",\"params\":\x7b\x7d\x7d"
            (by decide)⟩
  rw [h.1]
  rfl

/-- Witness for C2: a fully successful startup emits exactly the ready line
before the loop output, and scenario E's failed server resolution emits
nothing on stdout, exits with status 1 and reports on stderr. -/
theorem c2_ready_signal_witness :
    ((mainRun ⟨.ok (), .ok true, .ok true⟩ trivServer []).stdout
        = readyJson :: (runLoop trivServer []).1
      ∧ (mainRun ⟨.ok (), .ok true, .ok true⟩ trivServer []).exitCode = 0)
    ∧ ((mainRun ⟨.ok (), .ok true, .ok false⟩ trivServer []).stdout = []
      ∧ (mainRun ⟨.ok (), .ok true, .ok false⟩ trivServer []).exitCode = 1
      ∧ (mainRun ⟨.ok (), .ok true, .ok false⟩ trivServer []).stderr ≠ []) := by
  refine ⟨(c2_ready_signal ⟨.ok (), .ok true, .ok true⟩ trivServer []).2.2 ⟨rfl, rfl, rfl⟩,
          (c2_ready_signal ⟨.ok (), .ok true, .ok false⟩ trivServer []).2.1 ?_⟩
  intro h
  have hh := h.2.2
  injection hh with hb
  cases hb

/-- Witness for C3 at scenario C's method name. -/
theorem c3_unknown_method_witness :
    dispatch trivServer (.str "frobnicate") (.obj [])
      = (.error (.valueError ("Unknown method: " ++ "frobnicate")), []) :=
  (c3_unknown_method trivServer "frobnicate" (.obj []) (by decide)).1

/-- Witness for C4 at scenario D: `getACL` on a channel for which the remote
side raises `InvalidChannelException`. -/
theorem c4_failure_translator_witness :
    (runLoop chanFailServer
        ["\x7b\"id\":\"4\",\"method\":\"getACL\",\"params\":\x7b\"channelId\":999\x7d\x7d"]).1
      = [errResp (.str "4") "Murmur: InvalidChannelException"] := by
  have h := c4_failure_translator chanFailServer
    "\x7b\"id\":\"4\",\"method\":\"getACL\",\"params\":\x7b\"channelId\":999\x7d\x7d" []
    [("id", .str "4"), ("method", .str "getACL"), ("params", .obj [("channelId", .num 999)])]
    .invalidChannel [.getACL 999] (by decide) (by rfl) (by rfl)
  rw [h]
  rfl

/-- Witness for C5 at scenario B's string id `"42"` (coerced to the integer
42, null result) and at the non-numeric id `"abc"` (no remote call, local
`ValueError` quoting the literal). -/
theorem c5_id_coercion_witness :
    dispatch trivServer (.str "unregisterUser") (.obj [("userId", .str "42")])
      = (.ok .null, [.unregisterUser 42])
    ∧ dispatch trivServer (.str "unregisterUser") (.obj [("userId", .str "abc")])
      = (.error (.valueError ("invalid literal for int() with base 10: \x27" ++ "abc" ++ "\x27")),
         []) := by
  have h42 := (c5_id_coercion trivServer (.str "42")).1 42 (by rfl)
  have habc := (c5_id_coercion trivServer (.str "abc")).2.1
    (.valueError ("invalid literal for int() with base 10: \x27" ++ "abc" ++ "\x27"))
  exact ⟨h42.2.2.2.2.2 (by rfl), (habc (by rfl)).1⟩

/-- Witness for C6 at scenario A's registered-user listing and a
registration record holding the field indices 0, 1 and 9. -/
theorem c6_string_keys_witness :
    dispatch trivServer (.str "getRegisteredUsers") (.obj [])
      = (.ok (.obj [("7", .str "alice")]), [.getRegisteredUsers (.str "")])
    ∧ dispatch trivServer (.str "getRegistration") (.obj [("userId", .num 3)])
      = (.ok (.obj [("UserName", .str "alice"), ("UserEmail", .str "a@b"), ("9", .str "x")]),
         [.getRegistration 3]) := by
  refine ⟨?_, ?_⟩
  · have h := (c6_string_keys trivServer []).1 [(7, "alice")] (by rfl)
    rw [h]
    rfl
  · have h := (c6_string_keys trivServer [("userId", .num 3)]).2 (.num 3) 3
      [(0, "alice"), (1, "a@b"), (9, "x")] (by rfl) (by rfl) (by rfl)
    rw [h]
    rfl

/-- Witness for C7: one wholly-defaulted ACL entry and an explicit
`inherit: false`. -/
theorem c7_setACL_witness :
    dispatch trivServer (.str "setACL")
        (.obj [("channelId", .num 7), ("acls", .arr [.obj []]), ("inherit", .bool false)])
      = (.ok .null, [.setACL 7 [⟨true, true, false, -1, "", 0, 0⟩] [] false]) := by
  have h := c7_setACL trivServer 7 false [.obj []] [⟨true, true, false, -1, "", 0, 0⟩] (by rfl)
  exact h.1 (by rfl)

/-- Witness for C8: the remote side returns one ACL entry plus a non-empty
group-definition list, and the latter is absent from the response. -/
theorem c8_getACL_witness :
    dispatch trivServer (.str "getACL") (.obj [("channelId", .num 1)])
      = (.ok (.obj [("acls", .arr [.obj [("applyHere", .bool true), ("applySubs", .bool true),
            ("inherited", .bool false), ("userid", .num (-1)), ("group", .str "admin"),
            ("allow", .num 908), ("deny", .num 0)]]), ("inherit", .bool true)]),
         [.getACL 1]) := by
  have h := c8_getACL trivServer [("channelId", .num 1)] (.num 1) 1
    [⟨true, true, false, -1, "admin", 908, 0⟩] [⟨"all"⟩] true (by rfl) (by rfl) (by rfl)
  rw [h]
  rfl

/-- Witness for C10: the valid-JSON non-object line `[1]`. -/
theorem c10_nonobject_json_witness :
    (runLoop trivServer ["[1]"]).1
      = [errResp (.str "") ("\x27" ++ "list" ++ "\x27 object has no attribute \x27get\x27")] := by
  have h := c10_nonobject_json trivServer "[1]" [] (.arr [.num 1]) (by decide) (by rfl)
    (fun mems hx => Json.noConfusion hx)
  rw [h.1]
  rfl
